import Mathlib

/-!
Verification of the destru-frontend viewport component and user store.

The development embeds, in Lean:
* the Pinia user store (`src/stores/user.store.ts`): its state and its single
  `set` action, with the two API calls modelled as oracles that may fail
  (`Except`), and an explicit trace of the observable effects;
* the `InteractiveCanvas` camera controller of the structure-viewport
  component: its state (rotation angles, view distance, drag/pinch anchors),
  its seven event handlers, the clamping performed in `renderImmediately`,
  and the listener attach/detach bookkeeping of `constructor`/`destroy`;
* the component-level lifecycle around it: the `ResizeObserver` callback and
  the module-level `redraw` that rebuilds the renderer and the controller.

JavaScript floating-point numbers are modelled by real numbers; the JS `%`
remainder (truncated toward zero) and `Math.hypot` are given explicit
definitions.
-/

open Real

/-! ## User store (src/stores/user.store.ts) -/

/-- The store state: `{ flag: boolean, user: User | null }`.  The opaque
`User` type is a parameter. -/
structure UserStoreState (U : Type) where
  flag : Bool
  user : Option U
deriving DecidableEq

/-- Observable effects of the `set` action, in execution order: assignments
to `this.flag` / `this.user`, and the two API calls. -/
inductive StoreEv (U : Type) where
  | setFlag (b : Bool)
  | callGetUserName (id : String)
  | callGetUser (name : String)
  | setUser (u : Option U)
deriving DecidableEq

/-- JS truthiness of the optional `id` argument: `undefined` and the empty
string are falsy, every other string is truthy. -/
def idTruthy : Option String → Bool
  | none => false
  | some s => !s.isEmpty

/-- The `else` branch of `set`: `this.flag = false; this.user = null`. -/
def resetResult (U ε : Type) :
    UserStoreState U × List (StoreEv U) × Option ε :=
  (⟨false, none⟩, [.setFlag false, .setUser none], none)

namespace UserStore

/-- The `set(id?)` action.  `api1` models `api.getUserName` (returning the
`name` field) and `api2` models `api.getUser` (returning the `user` field);
either may reject, modelled by `Except.error`.  The result is the store state
when the action settles, the trace of effects it performed, and the
propagated rejection (if any).  A rejection aborts the action at the failed
await, leaving the assignments made so far in place. -/
def set {U ε : Type} (api1 : String → Except ε String)
    (api2 : String → Except ε U)
    (oid : Option String) (s : UserStoreState U) :
    UserStoreState U × List (StoreEv U) × Option ε :=
  match oid with
  | none => resetResult U ε
  | some id =>
    if id.isEmpty then resetResult U ε
    else
      let s1 : UserStoreState U := { s with flag := true }
      match api1 id with
      | .error e => (s1, [.setFlag true, .callGetUserName id], some e)
      | .ok name =>
        match api2 name with
        | .error e =>
          (s1, [.setFlag true, .callGetUserName id, .callGetUser name],
            some e)
        | .ok u =>
          ({ s1 with user := some u },
            [.setFlag true, .callGetUserName id, .callGetUser name,
              .setUser (some u)], none)

end UserStore

/-- Whether a trace event is a network call. -/
def StoreEv.isCall {U : Type} : StoreEv U → Bool
  | .callGetUserName _ => true
  | .callGetUser _ => true
  | _ => false

/-! ## Camera controller (`InteractiveCanvas`)

The camera model lives over the real numbers (JS doubles idealized), so the
definitions in this section are noncomputable; concrete evaluations in the
witnesses go through `simp`/`norm_num` instead of `decide`. -/

noncomputable section

/-- Truncation toward zero, as JS `Math.trunc` / the integer part used by the
JS `%` operator. -/
def jsTrunc (x : ℝ) : ℤ :=
  if 0 ≤ x then ⌊x⌋ else ⌈x⌉

/-- The JS remainder operator `a % b`: `a - b * trunc(a / b)`. -/
def jsMod (a b : ℝ) : ℝ :=
  a - b * jsTrunc (a / b)

/-- `Math.hypot(dx, dy)`. -/
def hypot (dx dy : ℝ) : ℝ :=
  Real.sqrt (dx ^ 2 + dy ^ 2)

/-- Mutable state of an `InteractiveCanvas`: the orbit-camera parameters and
the transient drag/pinch anchors.  `center`, `viewDist` and `maxViewDist`
are the constructor's (defaulted) parameters; `center` and the structure
size do not change after construction. -/
structure Cam where
  xRot : ℝ
  yRot : ℝ
  viewDist : ℝ
  maxViewDist : ℝ
  dragPos : Option (ℝ × ℝ)
  pinchStartDist : Option ℝ
  pinchStartViewDist : Option ℝ

/-- The bounding-box diagonal `Math.sqrt(sx² + sy² + sz²)` used as the
default `viewDist`. -/
def diag (size : ℝ × ℝ × ℝ) : ℝ :=
  Real.sqrt (size.1 ^ 2 + size.2.1 ^ 2 + size.2.2 ^ 2)

/-- State after `new InteractiveCanvas(canvas, onRender, size)` with the
default arguments: `xRot = yRot = 0.5`, `viewDist` the bounding-box
diagonal, `maxViewDist = viewDist ** 2`, all anchors null. -/
def initCam (size : ℝ × ℝ × ℝ) : Cam :=
  { xRot := 0.5
    yRot := 0.5
    viewDist := diag size
    maxViewDist := diag size ^ 2
    dragPos := none
    pinchStartDist := none
    pinchStartViewDist := none }

/-- `handleMouseDown`: the primary button (0) anchors a drag. -/
def handleMouseDown (button : ℕ) (x y : ℝ) (s : Cam) : Cam :=
  if button = 0 then { s with dragPos := some (x, y) } else s

/-- `handleMouseMove`: while dragging, rotate by the pointer delta divided
by 100 and move the anchor to the current position. -/
def handleMouseMove (x y : ℝ) (s : Cam) : Cam :=
  match s.dragPos with
  | some p =>
    { s with
      yRot := s.yRot + (x - p.1) / 100
      xRot := s.xRot + (y - p.2) / 100
      dragPos := some (x, y) }
  | none => s

/-- `handleMouseUp`: release the drag anchor. -/
def handleMouseUp (s : Cam) : Cam :=
  { s with dragPos := none }

/-- `handleWheel`: `viewDist += deltaY / 100`. -/
def handleWheel (deltaY : ℝ) (s : Cam) : Cam :=
  { s with viewDist := s.viewDist + deltaY / 100 }

/-- `handleTouchStart`: one finger anchors a drag, two fingers anchor a
pinch (recording the finger separation and the current view distance). -/
def handleTouchStart (ts : List (ℝ × ℝ)) (s : Cam) : Cam :=
  match ts with
  | [t] => { s with dragPos := some t, pinchStartDist := none }
  | [t1, t2] =>
    { s with
      pinchStartDist := some (hypot (t2.1 - t1.1) (t2.2 - t1.2))
      pinchStartViewDist := some s.viewDist
      dragPos := none }
  | _ => s

/-- `handleTouchMove`: one finger with a live drag anchor rotates like a
mouse drag; two fingers with a truthy pinch anchor (non-null and non-zero
separation) rescale `viewDist` by the inverse of the separation ratio. -/
def handleTouchMove (ts : List (ℝ × ℝ)) (s : Cam) : Cam :=
  match ts with
  | [t] =>
    match s.dragPos with
    | some p =>
      { s with
        yRot := s.yRot + (t.1 - p.1) / 100
        xRot := s.xRot + (t.2 - p.2) / 100
        dragPos := some t }
    | none => s
  | [t1, t2] =>
    match s.pinchStartDist, s.pinchStartViewDist with
    | some d, some v0 =>
      if d = 0 then s
      else
        { s with
          viewDist := v0 / (hypot (t2.1 - t1.1) (t2.2 - t1.2) / d) }
    | _, _ => s
  | _ => s

/-- `handleTouchEnd`: no fingers left clears all anchors; one finger left
re-anchors a drag and clears the pinch. -/
def handleTouchEnd (ts : List (ℝ × ℝ)) (s : Cam) : Cam :=
  match ts with
  | [] =>
    { s with
      dragPos := none
      pinchStartDist := none
      pinchStartViewDist := none }
  | [t] =>
    { s with
      dragPos := some t
      pinchStartDist := none
      pinchStartViewDist := none }
  | _ => s

/-- The state mutations of `renderImmediately`, performed before the view
matrix is built: wrap `yRot` by the JS remainder modulo 2π, clamp `xRot` to
[-π/2, π/2], clamp `viewDist` to [1, maxViewDist]. -/
def renderImmediately (s : Cam) : Cam :=
  { s with
    yRot := jsMod s.yRot (π * 2)
    xRot := max (-(π / 2)) (min (π / 2) s.xRot)
    viewDist := min (max s.viewDist 1) s.maxViewDist }

/-- A synthetic DOM event aimed at the camera controller. -/
inductive Ev where
  | mouseDown (button : ℕ) (x y : ℝ)
  | mouseMove (x y : ℝ)
  | mouseUp
  | wheel (deltaY : ℝ)
  | touchStart (ts : List (ℝ × ℝ))
  | touchMove (ts : List (ℝ × ℝ))
  | touchEnd (ts : List (ℝ × ℝ))

/-- Effect of one event on the camera state, handlers always reached. -/
def camStep (e : Ev) (s : Cam) : Cam :=
  match e with
  | .mouseDown b x y => handleMouseDown b x y s
  | .mouseMove x y => handleMouseMove x y s
  | .mouseUp => handleMouseUp s
  | .wheel d => handleWheel d s
  | .touchStart ts => handleTouchStart ts s
  | .touchMove ts => handleTouchMove ts s
  | .touchEnd ts => handleTouchEnd ts s

/-- Effect of a sequence of events on the camera state. -/
def applyEvents (s : Cam) (evs : List Ev) : Cam :=
  evs.foldl (fun s e => camStep e s) s

/-! ### Listener bookkeeping (`constructor` / `destroy`) -/

/-- Which of the seven listeners attached in the `InteractiveCanvas`
constructor are currently attached.  The constructor attaches all seven
(the handlers are arrow-function fields, so `destroy` removes the very same
function references). -/
structure Listeners where
  mousedown : Bool
  mousemove : Bool
  mouseup : Bool
  wheel : Bool
  touchstart : Bool
  touchmove : Bool
  touchend : Bool
deriving DecidableEq

/-- An `InteractiveCanvas` instance together with its DOM listener state. -/
structure IC where
  cam : Cam
  ls : Listeners

/-- Listener state right after the constructor ran: all seven attached. -/
def attachedAll : Listeners :=
  ⟨true, true, true, true, true, true, true⟩

/-- A freshly constructed `InteractiveCanvas`. -/
def initIC (size : ℝ × ℝ × ℝ) : IC :=
  { cam := initCam size, ls := attachedAll }

/-- `destroy()`: remove every listener attached in the constructor. -/
def IC.destroy (v : IC) : IC :=
  { v with ls := ⟨false, false, false, false, false, false, false⟩ }

/-- DOM event delivery: an event reaches its handler only while the
corresponding listener is attached. -/
def dispatch (e : Ev) (v : IC) : IC :=
  match e with
  | .mouseDown b x y =>
    if v.ls.mousedown then { v with cam := handleMouseDown b x y v.cam }
    else v
  | .mouseMove x y =>
    if v.ls.mousemove then { v with cam := handleMouseMove x y v.cam }
    else v
  | .mouseUp =>
    if v.ls.mouseup then { v with cam := handleMouseUp v.cam } else v
  | .wheel d =>
    if v.ls.wheel then { v with cam := handleWheel d v.cam } else v
  | .touchStart ts =>
    if v.ls.touchstart then { v with cam := handleTouchStart ts v.cam }
    else v
  | .touchMove ts =>
    if v.ls.touchmove then { v with cam := handleTouchMove ts v.cam }
    else v
  | .touchEnd ts =>
    if v.ls.touchend then { v with cam := handleTouchEnd ts v.cam }
    else v

/-- Delivery of a sequence of events to an instance. -/
def dispatchAll (v : IC) (evs : List Ev) : IC :=
  evs.foldl (fun v e => dispatch e v) v

end

/-! ## Viewport component lifecycle

State of the surrounding Vue component: the container/canvas refs, the
resource-store readiness flags, the module-level `renderer` and
`interactiveCanvas` bindings (tracked by instance identity), and whether an
animation frame running the module-level `redraw` is pending.  `nextId`
supplies fresh identities for newly constructed renderer/controller pairs. -/

structure ViewportState where
  container : Option (Nat × Nat)
  canvasPresent : Bool
  canvasW : Nat
  canvasH : Nat
  isReady : Bool
  hasResources : Bool
  glOk : Bool
  rendererId : Option Nat
  icId : Option Nat
  nextId : Nat
  framePending : Bool
deriving DecidableEq

/-- The `ResizeObserver` callback: bail out if the container or canvas ref
is empty; otherwise copy the container's client dimensions into the canvas
backing store and schedule the module-level `redraw` via
`requestAnimationFrame`. -/
def resizeCallback (s : ViewportState) : ViewportState :=
  match s.container with
  | none => s
  | some wh =>
    if s.canvasPresent then
      { s with canvasW := wh.1, canvasH := wh.2, framePending := true }
    else s

/-- The module-level `redraw`: bail out unless resources are ready and the
canvas yields a WebGL context; otherwise destroy the current
`interactiveCanvas`, drop the current `renderer`, and construct a fresh
`StructureRenderer` and a fresh `InteractiveCanvas`. -/
def moduleRedraw (s : ViewportState) : ViewportState :=
  if s.isReady ∧ s.hasResources ∧ s.canvasPresent then
    if s.glOk then
      { s with
        rendererId := some s.nextId
        icId := some (s.nextId + 1)
        nextId := s.nextId + 2 }
    else s
  else s

/-- The pending animation frame fires and runs the scheduled `redraw`. -/
def runFrame (s : ViewportState) : ViewportState :=
  if s.framePending then moduleRedraw { s with framePending := false }
  else s

/-! ## Concrete instances used by witnesses and counterexamples -/

/-- A concrete always-succeeding `getUserName` oracle. -/
def cApi1 : String → Except Unit String := fun _ => .ok "alice"

/-- A concrete always-succeeding `getUser` oracle (users are numbers). -/
def cApi2 : String → Except Unit Nat := fun _ => .ok 7

/-- A concrete `getUserName` oracle that rejects every id. -/
def cApi1Err : String → Except Unit String := fun _ => .error ()

/-- A concrete prior store state holding a user with the busy flag down. -/
def cStore : UserStoreState Nat := ⟨false, some 3⟩

/-- A concrete mounted, ready viewport state with a live renderer (id 0)
and a live `InteractiveCanvas` (id 1). -/
def vState0 : ViewportState :=
  { container := some (800, 600)
    canvasPresent := true
    canvasW := 1
    canvasH := 1
    isReady := true
    hasResources := true
    glOk := true
    rendererId := some 0
    icId := some 1
    nextId := 2
    framePending := false }

/-! # Theorems -/

/-! ## User store -/

/-- C4: `set()` with no id sets `flag = false` and `user = null`, for every
prior store state and every pair of API oracles. -/
theorem set_none_resets {U ε : Type} (api1 : String → Except ε String)
    (api2 : String → Except ε U) (s : UserStoreState U) :
    (UserStore.set api1 api2 none s).1 = ⟨false, none⟩ :=
  rfl

/-- C3, counterexample: the claim quantifies over every supplied id, but for
the supplied id `""` the action takes the reset branch: the busy flag is set
to `false` (not `true`) and no lookup is awaited, so the claimed
flag-then-lookups-then-assign sequence does not happen. -/
theorem set_empty_breaks_sequencing :
    (UserStore.set cApi1 cApi2 (some "") cStore).1.flag = false ∧
    (UserStore.set cApi1 cApi2 (some "") cStore).2.1.all (fun e => !e.isCall) = true := by
  decide

/-- C3, amended: for every supplied non-empty id, `set(id)` first sets the
busy flag, then awaits `getUserName(id)` to obtain a name, then awaits
`getUser(name)`, and only after both lookups complete assigns the resulting
user record to the store's `user` field, in that order (witnessed by the
effect trace). -/
theorem set_sequences_lookups {U ε : Type} (api1 : String → Except ε String)
    (api2 : String → Except ε U) (id : String) (nm : String) (u : U)
    (hid : id.isEmpty = false) (h1 : api1 id = .ok nm)
    (h2 : api2 nm = .ok u) (s : UserStoreState U) :
    UserStore.set api1 api2 (some id) s =
      (⟨true, some u⟩,
        [.setFlag true, .callGetUserName id, .callGetUser nm,
          .setUser (some u)], none) := by
  simp [UserStore.set, hid, h1, h2]

/-- Witness for `set_sequences_lookups` at id `"k"` with the concrete
oracles. -/
theorem set_sequences_lookups_witness :
    "k".isEmpty = false ∧ cApi1 "k" = .ok "alice" ∧ cApi2 "alice" = .ok 7 ∧
    UserStore.set cApi1 cApi2 (some "k") cStore =
      (⟨true, some 7⟩,
        [.setFlag true, .callGetUserName "k", .callGetUser "alice",
          .setUser (some 7)], none) :=
  ⟨rfl, rfl, rfl,
    set_sequences_lookups cApi1 cApi2 "k" "alice" 7 rfl rfl rfl cStore⟩

/-- C8: for every supplied non-empty id and every prior state, if the
name-lookup rejects, or the name-lookup succeeds and the profile-lookup
rejects, then `set(id)` propagates that rejection uncaught, `user` keeps its
prior value, and `flag` remains `true` (set before the first await, never
reset on failure). -/
theorem set_rejection_propagates {U ε : Type}
    (api1 : String → Except ε String) (api2 : String → Except ε U)
    (id : String) (e : ε) (hid : id.isEmpty = false)
    (herr : api1 id = .error e ∨
      ∃ nm, api1 id = .ok nm ∧ api2 nm = .error e)
    (s : UserStoreState U) :
    (UserStore.set api1 api2 (some id) s).2.2 = some e ∧
    (UserStore.set api1 api2 (some id) s).1.user = s.user ∧
    (UserStore.set api1 api2 (some id) s).1.flag = true := by
  rcases herr with h1 | ⟨nm, h1, h2⟩
  · simp [UserStore.set, hid, h1]
  · simp [UserStore.set, hid, h1, h2]

/-- Witness for `set_rejection_propagates`: the rejecting name-lookup oracle
at id `"k"` on the concrete prior state. -/
theorem set_rejection_propagates_witness :
    "k".isEmpty = false ∧
    (cApi1Err "k" = .error () ∨
      ∃ nm, cApi1Err "k" = .ok nm ∧ cApi2 nm = .error ()) ∧
    ((UserStore.set cApi1Err cApi2 (some "k") cStore).2.2 = some () ∧
      (UserStore.set cApi1Err cApi2 (some "k") cStore).1.user = cStore.user ∧
      (UserStore.set cApi1Err cApi2 (some "k") cStore).1.flag = true) :=
  ⟨rfl, Or.inl rfl,
    set_rejection_propagates cApi1Err cApi2 "k" () rfl (Or.inl rfl) cStore⟩

/-- C9: `set("")` behaves exactly like `set()` with no id — the branch
condition is JS truthiness, which the empty string fails just like
`undefined` — so the result state is `flag = false`, `user = null`, the
trace contains no network call, and the whole outcome coincides with the
no-id call. -/
theorem set_empty_like_none {U ε : Type} (api1 : String → Except ε String)
    (api2 : String → Except ε U) (s : UserStoreState U) :
    idTruthy (some "") = idTruthy none ∧
    UserStore.set api1 api2 (some "") s = UserStore.set api1 api2 none s ∧
    (UserStore.set api1 api2 (some "") s).1 = ⟨false, none⟩ ∧
    (UserStore.set api1 api2 (some "") s).2.1.all (fun e => !e.isCall) = true := by
  refine ⟨rfl, rfl, rfl, ?_⟩
  simp [UserStore.set, resetResult, StoreEv.isCall,
    show "".isEmpty = true from rfl]

/-! ## Camera controller: helper lemmas -/

/-- The JS remainder by a positive modulus has absolute value below the
modulus. -/
theorem abs_jsMod_lt (a b : ℝ) (hb : 0 < b) : |jsMod a b| < b := by
  have hbne : b ≠ 0 := ne_of_gt hb
  have ha : b * (a / b) = a := by field_simp
  rw [abs_lt]
  unfold jsMod jsTrunc
  split
  · have h1 := Int.floor_le (a / b)
    have h2 := Int.lt_floor_add_one (a / b)
    have k1 : b * (⌊a / b⌋ : ℝ) ≤ b * (a / b) :=
      mul_le_mul_of_nonneg_left h1 hb.le
    have k2 : b * (a / b) < b * ((⌊a / b⌋ : ℝ) + 1) :=
      (mul_lt_mul_left hb).mpr h2
    constructor <;> nlinarith
  · have h1 := Int.le_ceil (a / b)
    have h2 := Int.ceil_lt_add_one (a / b)
    have k1 : b * (a / b) ≤ b * (⌈a / b⌉ : ℝ) :=
      mul_le_mul_of_nonneg_left h1 hb.le
    have k2 : b * ((⌈a / b⌉ : ℝ)) < b * (a / b + 1) :=
      (mul_lt_mul_left hb).mpr h2
    constructor <;> nlinarith

/-- No event handler touches `maxViewDist`. -/
theorem camStep_maxViewDist (e : Ev) (s : Cam) :
    (camStep e s).maxViewDist = s.maxViewDist := by
  cases e with
  | mouseDown b x y =>
    show (handleMouseDown b x y s).maxViewDist = s.maxViewDist
    unfold handleMouseDown; split <;> rfl
  | mouseMove x y =>
    show (handleMouseMove x y s).maxViewDist = s.maxViewDist
    unfold handleMouseMove; cases s.dragPos <;> rfl
  | mouseUp => rfl
  | wheel d => rfl
  | touchStart ts =>
    show (handleTouchStart ts s).maxViewDist = s.maxViewDist
    unfold handleTouchStart
    rcases ts with _ | ⟨t1, _ | ⟨t2, _ | _⟩⟩ <;> rfl
  | touchMove ts =>
    show (handleTouchMove ts s).maxViewDist = s.maxViewDist
    unfold handleTouchMove
    repeat' split
    all_goals rfl
  | touchEnd ts =>
    show (handleTouchEnd ts s).maxViewDist = s.maxViewDist
    unfold handleTouchEnd
    rcases ts with _ | ⟨t1, _ | ⟨t2, _ | _⟩⟩ <;> rfl

/-- `maxViewDist` is invariant under any event sequence. -/
theorem applyEvents_maxViewDist (s : Cam) (evs : List Ev) :
    (applyEvents s evs).maxViewDist = s.maxViewDist := by
  induction evs generalizing s with
  | nil => rfl
  | cons e rest ih =>
    show (applyEvents (camStep e s) rest).maxViewDist = s.maxViewDist
    rw [ih, camStep_maxViewDist]

/-- A camera whose recorded pinch-start separation is zero is left unchanged
by every two-finger move: the handler's truthiness guard rejects the zero
separation before any division. -/
theorem handleTouchMove_pinch_zero (s : Cam) (t1 t2 : ℝ × ℝ)
    (h0 : s.pinchStartDist = some 0) :
    handleTouchMove [t1, t2] s = s := by
  cases h2 : s.pinchStartViewDist <;>
    simp [handleTouchMove, h0, h2]

noncomputable section

/-- A concrete camera state mid-drag, anchored at (10, 20). -/
def cCamDrag : Cam :=
  { xRot := 0
    yRot := 0
    viewDist := 5
    maxViewDist := 25
    dragPos := some (10, 20)
    pinchStartDist := none
    pinchStartViewDist := none }

/-- A concrete camera state mid-pinch: start separation 1, start view
distance 10. -/
def cCamPinch : Cam :=
  { xRot := 0
    yRot := 0
    viewDist := 10
    maxViewDist := 100
    dragPos := none
    pinchStartDist := some 1
    pinchStartViewDist := some 10 }

end

/-! ## Camera controller: claims -/

/-- C2: for every structure size and every sequence of drag, wheel and pinch
events, the camera parameters respect their clamps at the point
`renderImmediately` builds the view matrix: `xRot` lies in [-π/2, π/2],
`yRot` is the pre-render `yRot` reduced modulo 2π (it differs from it by an
integer multiple of 2π and has absolute value below 2π), and `viewDist` lies
in [1, maxViewDist], where `maxViewDist` is the squared bounding-box
diagonal — provided that squared diagonal is at least 1, without which the
interval [1, maxViewDist] is empty. -/
theorem camera_clamped_before_render (size : ℝ × ℝ × ℝ) (evs : List Ev)
    (h : 1 ≤ (initCam size).maxViewDist) :
    (-(π / 2) ≤ (renderImmediately (applyEvents (initCam size) evs)).xRot ∧
      (renderImmediately (applyEvents (initCam size) evs)).xRot ≤ π / 2) ∧
    (∃ k : ℤ,
      (renderImmediately (applyEvents (initCam size) evs)).yRot =
        (applyEvents (initCam size) evs).yRot - π * 2 * k ∧
      |(renderImmediately (applyEvents (initCam size) evs)).yRot| < π * 2) ∧
    (1 ≤ (renderImmediately (applyEvents (initCam size) evs)).viewDist ∧
      (renderImmediately (applyEvents (initCam size) evs)).viewDist ≤
        diag size ^ 2) := by
  have hmax : (applyEvents (initCam size) evs).maxViewDist = diag size ^ 2 := by
    rw [applyEvents_maxViewDist]; rfl
  have hmax1 : 1 ≤ (applyEvents (initCam size) evs).maxViewDist := by
    rw [applyEvents_maxViewDist]; exact h
  have hpi : (0 : ℝ) < π * 2 := by positivity
  refine ⟨⟨le_max_left _ _, max_le (by linarith [pi_pos]) (min_le_left _ _)⟩,
    ⟨jsTrunc ((applyEvents (initCam size) evs).yRot / (π * 2)), ?_,
      abs_jsMod_lt _ _ hpi⟩,
    le_min (le_max_right _ _) hmax1, (min_le_right _ _).trans hmax.le⟩
  rfl

/-- Witness for `camera_clamped_before_render` at size (1, 1, 1) (squared
diagonal 3) with the empty event sequence. -/
theorem camera_clamped_before_render_witness :
    1 ≤ (initCam ((1 : ℝ), (1 : ℝ), (1 : ℝ))).maxViewDist ∧
    ((-(π / 2) ≤
        (renderImmediately (applyEvents (initCam (1, 1, 1)) [])).xRot ∧
      (renderImmediately (applyEvents (initCam (1, 1, 1)) [])).xRot ≤
        π / 2) ∧
    (∃ k : ℤ,
      (renderImmediately (applyEvents (initCam (1, 1, 1)) [])).yRot =
        (applyEvents (initCam (1, 1, 1)) []).yRot - π * 2 * k ∧
      |(renderImmediately (applyEvents (initCam (1, 1, 1)) [])).yRot| <
        π * 2) ∧
    (1 ≤ (renderImmediately (applyEvents (initCam (1, 1, 1)) [])).viewDist ∧
      (renderImmediately (applyEvents (initCam (1, 1, 1)) [])).viewDist ≤
        diag (1, 1, 1) ^ 2)) := by
  have h : 1 ≤ (initCam ((1 : ℝ), (1 : ℝ), (1 : ℝ))).maxViewDist := by
    show (1 : ℝ) ≤ diag (1, 1, 1) ^ 2
    rw [diag, Real.sq_sqrt (by norm_num)]
    norm_num
  exact ⟨h, camera_clamped_before_render (1, 1, 1) [] h⟩

/-- C5: while a drag is anchored at (px, py) — set by a primary-button
mousedown or a single-finger touchstart — a mouse move or single-finger
touch move to (x, y) adds (x - px)/100 to `yRot` and (y - py)/100 to
`xRot`, with no clamping or wrapping at this point, and re-anchors the drag
at (x, y). -/
theorem drag_rotation_delta (s : Cam) (px py x y : ℝ)
    (hd : s.dragPos = some (px, py)) :
    ((handleMouseMove x y s).yRot = s.yRot + (x - px) / 100 ∧
      (handleMouseMove x y s).xRot = s.xRot + (y - py) / 100 ∧
      (handleMouseMove x y s).dragPos = some (x, y)) ∧
    ((handleTouchMove [(x, y)] s).yRot = s.yRot + (x - px) / 100 ∧
      (handleTouchMove [(x, y)] s).xRot = s.xRot + (y - py) / 100 ∧
      (handleTouchMove [(x, y)] s).dragPos = some (x, y)) := by
  simp [handleMouseMove, handleTouchMove, hd]

/-- Witness for `drag_rotation_delta`: a pointer move from anchor (10, 20)
to (13, 24) on the concrete mid-drag camera. -/
theorem drag_rotation_delta_witness :
    cCamDrag.dragPos = some (10, 20) ∧
    (((handleMouseMove 13 24 cCamDrag).yRot =
        cCamDrag.yRot + (13 - 10) / 100 ∧
      (handleMouseMove 13 24 cCamDrag).xRot =
        cCamDrag.xRot + (24 - 20) / 100 ∧
      (handleMouseMove 13 24 cCamDrag).dragPos = some (13, 24)) ∧
    ((handleTouchMove [(13, 24)] cCamDrag).yRot =
        cCamDrag.yRot + (13 - 10) / 100 ∧
      (handleTouchMove [(13, 24)] cCamDrag).xRot =
        cCamDrag.xRot + (24 - 20) / 100 ∧
      (handleTouchMove [(13, 24)] cCamDrag).dragPos = some (13, 24))) :=
  ⟨rfl, drag_rotation_delta cCamDrag 10 20 13 24 rfl⟩

/-- C6: during a two-finger pinch whose recorded start separation d is
non-zero and whose recorded start view distance is v0, a touch move with
fingers at t1 and t2 sets `viewDist` to v0 divided by the ratio of the
current finger separation to d. -/
theorem pinch_scales_viewDist (s : Cam) (d v0 : ℝ) (t1 t2 : ℝ × ℝ)
    (hd : s.pinchStartDist = some d) (hdz : d ≠ 0)
    (hv : s.pinchStartViewDist = some v0) :
    (handleTouchMove [t1, t2] s).viewDist =
      v0 / (hypot (t2.1 - t1.1) (t2.2 - t1.2) / d) := by
  simp [handleTouchMove, hd, hv, hdz]

/-- Witness for `pinch_scales_viewDist`: start separation 1, start view
distance 10, fingers at (0, 0) and (3, 4) (separation 5), giving view
distance 10 / 5 = 2. -/
theorem pinch_scales_viewDist_witness :
    cCamPinch.pinchStartDist = some 1 ∧ (1 : ℝ) ≠ 0 ∧
    cCamPinch.pinchStartViewDist = some 10 ∧
    (handleTouchMove [(0, 0), (3, 4)] cCamPinch).viewDist = 2 := by
  have h := pinch_scales_viewDist cCamPinch 1 10 (0, 0) (3, 4) rfl
    (by norm_num) rfl
  refine ⟨rfl, by norm_num, rfl, ?_⟩
  rw [h]
  have h5 : hypot (((3 : ℝ), (4 : ℝ)).1 - ((0 : ℝ), (0 : ℝ)).1)
      (((3 : ℝ), (4 : ℝ)).2 - ((0 : ℝ), (0 : ℝ)).2) = 5 := by
    rw [hypot]
    norm_num
    rw [show (25 : ℝ) = 5 ^ 2 by norm_num, Real.sqrt_sq (by norm_num)]
  rw [h5]
  norm_num

/-- C10: if a two-finger gesture starts with both touches at the same
position, the recorded start separation is 0; the truthiness guard in the
move handler then rejects every subsequent two-finger move, so no division
by the zero separation happens and the whole camera state — `viewDist`
included — is unchanged by any sequence of such moves. -/
theorem pinch_zero_separation_ignored (s : Cam) (p : ℝ × ℝ)
    (moves : List ((ℝ × ℝ) × (ℝ × ℝ))) :
    (handleTouchStart [p, p] s).pinchStartDist = some 0 ∧
    applyEvents (handleTouchStart [p, p] s)
      (moves.map fun q => Ev.touchMove [q.1, q.2]) =
      handleTouchStart [p, p] s := by
  have h0 : (handleTouchStart [p, p] s).pinchStartDist = some 0 := by
    simp [handleTouchStart, hypot, sub_self]
  refine ⟨h0, ?_⟩
  induction moves with
  | nil => rfl
  | cons q rest ih =>
    show applyEvents
      (camStep (Ev.touchMove [q.1, q.2]) (handleTouchStart [p, p] s))
      (rest.map fun q => Ev.touchMove [q.1, q.2]) = handleTouchStart [p, p] s
    rw [show camStep (Ev.touchMove [q.1, q.2]) (handleTouchStart [p, p] s) =
        handleTouchStart [p, p] s from
      handleTouchMove_pinch_zero _ q.1 q.2 h0]
    exact ih

/-- C7: `destroy()` detaches all seven listeners attached in the
constructor, and afterwards every synthetic event — and every sequence of
them — reaches no handler, leaving the camera state (rotations, view
distance, drag and pinch anchors) unchanged. -/
theorem destroy_detaches_listeners (v : IC) (e : Ev) (evs : List Ev) :
    v.destroy.ls = ⟨false, false, false, false, false, false, false⟩ ∧
    dispatch e v.destroy = v.destroy ∧
    dispatchAll v.destroy evs = v.destroy ∧
    (dispatchAll v.destroy evs).cam = v.cam := by
  have h2 : ∀ e2, dispatch e2 v.destroy = v.destroy := by
    intro e2
    cases e2 <;> simp [dispatch, IC.destroy]
  have h3 : dispatchAll v.destroy evs = v.destroy := by
    induction evs with
    | nil => rfl
    | cons a rest ih =>
      show dispatchAll (dispatch a v.destroy) rest = v.destroy
      rw [h2 a]
      exact ih
  exact ⟨rfl, h2 e, h3, by rw [h3]; rfl⟩

/-! ## Viewport lifecycle: resize (C1) -/

/-- C1, counterexample: the `ResizeObserver` callback schedules the
module-level `redraw` via `requestAnimationFrame`, and that `redraw`
destroys the current `InteractiveCanvas` and constructs a fresh
`StructureRenderer` and a fresh `InteractiveCanvas`.  On the concrete
mounted, resource-ready state `vState0` (renderer identity 0, controller
identity 1), the resize event followed by its scheduled frame leaves both
bindings pointing at different instances — contradicting the claim that the
existing instances are left unchanged. -/
theorem resize_rebuilds_counterexample :
    (runFrame (resizeCallback vState0)).canvasW = 800 ∧
    (runFrame (resizeCallback vState0)).canvasH = 600 ∧
    (runFrame (resizeCallback vState0)).rendererId ≠ vState0.rendererId ∧
    (runFrame (resizeCallback vState0)).icId ≠ vState0.icId := by
  decide

/-- C1, amended: for every resize event observed while the container and
canvas refs are mounted, the handler sets the canvas backing-store width and
height to the container's client dimensions and schedules the module-level
redraw on the next animation frame; the handler itself leaves the
`StructureRenderer` and `InteractiveCanvas` bindings unchanged, but when the
scheduled redraw runs with resources ready and a WebGL context available, it
destroys them and rebuilds both from scratch. -/
theorem resize_resizes_and_schedules_rebuild (s : ViewportState) (w h : Nat)
    (hc : s.container = some (w, h)) (hcv : s.canvasPresent = true) :
    (resizeCallback s).canvasW = w ∧
    (resizeCallback s).canvasH = h ∧
    (resizeCallback s).framePending = true ∧
    (resizeCallback s).rendererId = s.rendererId ∧
    (resizeCallback s).icId = s.icId ∧
    (s.isReady = true → s.hasResources = true → s.glOk = true →
      (runFrame (resizeCallback s)).rendererId = some s.nextId ∧
      (runFrame (resizeCallback s)).icId = some (s.nextId + 1)) := by
  refine ⟨?_, ?_, ?_, ?_, ?_, ?_⟩ <;>
    simp [resizeCallback, hc, hcv, runFrame, moduleRedraw]
  intro h1 h2 h3
  simp [h1, h2, h3]

/-- Witness for `resize_resizes_and_schedules_rebuild` on the concrete
mounted state `vState0`. -/
theorem resize_resizes_and_schedules_rebuild_witness :
    vState0.container = some (800, 600) ∧ vState0.canvasPresent = true ∧
    ((resizeCallback vState0).canvasW = 800 ∧
      (resizeCallback vState0).canvasH = 600 ∧
      (resizeCallback vState0).framePending = true ∧
      (resizeCallback vState0).rendererId = vState0.rendererId ∧
      (resizeCallback vState0).icId = vState0.icId ∧
      (vState0.isReady = true → vState0.hasResources = true →
        vState0.glOk = true →
        (runFrame (resizeCallback vState0)).rendererId =
          some vState0.nextId ∧
        (runFrame (resizeCallback vState0)).icId =
          some (vState0.nextId + 1))) :=
  ⟨rfl, rfl, resize_resizes_and_schedules_rebuild vState0 800 600 rfl rfl⟩
